import Mathlib

/-!
Verification of the FTP fetch-session engine of wpull
(src/wpull/ftp/client.py, class Session), against its
natural-language specification.

The Python code is shallowly embedded: the mutable session object and the
side effects on the connection pool, on the recorder, and on the control
channel become explicit state passing over a World value that logs every
externally observable event.  The external collaborators (ConnectionPool,
Commander, ControlStream, listing decoders) are not part of src/, so their
behaviour is a parameter: an environment value chooses, for each command
cycle, whether negotiation fails before or after the data connection is
acquired, and whether the streamed read succeeds or fails, exactly the
outcomes the Python try/finally in Session._fetch_with_command
distinguishes.
-/

namespace Wpull

/-- A network address (host and port) as used by the connection pool. -/
structure Address where
  host : String
  port : Nat
deriving Repr, DecidableEq

/-- The role a pooled connection is used for by the session. -/
inductive Role where
  | control
  | data
deriving Repr, DecidableEq

/-- Modelled from the spec: a pooled connection handle, an owned
network-transport handle pooled by host and port (the Connection class is
not under src/). -/
structure Connection where
  id : Nat
  address : Address
deriving Repr, DecidableEq

/-- Observable bookkeeping events on the connection pool: checkout of a
fresh handle, return of a handle, and closing of a handle. -/
inductive PoolEvent where
  | checkOut (id : Nat) (role : Role) (host : String) (port : Nat)
  | checkIn (id : Nat)
  | closeConn (id : Nat)
deriving Repr, DecidableEq

/-- Observable control-channel interactions performed through the
Commander: protocol reset, a login attempt with the credentials actually
sent, and the start of one data-transfer command cycle. -/
inductive CtrlEvent where
  | reconnect
  | login (username : String) (password : String)
  | cycle (commandName : String) (argument : String)
deriving Repr, DecidableEq

/-- Events delivered to the recorder session, when one is attached. -/
inductive RecEvent where
  | beginControl
  | preResponse
  | responseEvent
  | endControl
  | responseData (bytes : List Nat)
deriving Repr, DecidableEq

/-- Modelled from the spec: the world visible outside the session, namely
the pool bookkeeping (ConnectionPool is not under src/), the
control-channel interaction log and the recorder log.  nextId numbers
pool checkouts. -/
structure World where
  nextId : Nat
  events : List PoolEvent
  ctrl : List CtrlEvent
  recLog : List RecEvent
deriving Repr, DecidableEq

/-- The world before any session activity. -/
def World.init : World := ⟨0, [], [], []⟩

/-- Modelled from the spec: ConnectionPool.check_out hands out a fresh
live handle for the requested host and port. -/
def World.checkOut (w : World) (role : Role) (host : String) (port : Nat) :
    Connection × World :=
  (⟨w.nextId, ⟨host, port⟩⟩,
   { w with nextId := w.nextId + 1,
            events := w.events ++ [.checkOut w.nextId role host port] })

/-- Modelled from the spec: ConnectionPool.check_in returns a handle to
the pool bookkeeping as no longer live. -/
def World.checkIn (w : World) (c : Connection) : World :=
  { w with events := w.events ++ [.checkIn c.id] }

/-- Modelled from the spec: Connection.close discards the transport
handle permanently. -/
def World.closeConn (w : World) (c : Connection) : World :=
  { w with events := w.events ++ [.closeConn c.id] }

/-- Append a recorder event when a recorder session is attached; a no-op
otherwise. -/
def World.record (w : World) (hasRec : Bool) (e : RecEvent) : World :=
  if hasRec then { w with recLog := w.recLog ++ [e] } else w

/-- URL information carried by a request (wpull.url URLInfo fields the
FTP client reads). -/
structure URLInfo where
  scheme : String
  hostname : String
  port : Nat
  path : String
  username : Option String
  password : Option String
deriving Repr, DecidableEq

/-- An FTP request: the URL information plus the address field assigned
once a control connection is acquired (wpull.ftp.request.Request). -/
structure Request where
  url_info : URLInfo
  address : Option Address
deriving Repr, DecidableEq

/-- An FTP reply: three-digit status code plus message text
(wpull.ftp.request.Reply). -/
structure Reply where
  code : Nat
  text : String
deriving Repr, DecidableEq

/-- A command sent over the control channel (wpull.ftp.request.Command). -/
structure Command where
  name : String
  argument : String
deriving Repr, DecidableEq

/-- The body sink: a seekable, truncatable byte destination.  data is the
byte content, pos the current file position (wpull.body.Body over an
underlying file). -/
structure Body where
  data : List Nat
  pos : Nat
deriving Repr, DecidableEq

/-- Body.seek to position zero. -/
def Body.seekStart (b : Body) : Body := { b with pos := 0 }

/-- Body.truncate at the current position: drop everything at and after
pos. -/
def Body.truncateHere (b : Body) : Body := { b with data := b.data.take b.pos }

/-- Write bytes at the current position, advancing it; transfers append
at the stream position. -/
def Body.write (b : Body) (bytes : List Nat) : Body :=
  { data := b.data.take b.pos ++ bytes, pos := b.pos + bytes.length }

/-- Read all bytes from the current position to the end, moving the
position to the end. -/
def Body.readAll (b : Body) : List Nat × Body :=
  (b.data.drop b.pos, { b with pos := b.data.length })

/-- A fresh empty body, as Body(file) built around a new spool file. -/
def Body.empty : Body := ⟨[], 0⟩

/-- Errors raised during a fetch (wpull.ftp.util and network errors):
a classified negative server reply (FTPServerError with its reply code),
connection-level failure, authentication failure, protocol failure. -/
inductive FTPErr where
  | serverReply (replyCode : Nat) (message : String)
  | connectionError
  | authError
  | protocolError
deriving Repr, DecidableEq

/-- Python-level errors the embedding distinguishes: the assertion in
Session._init_stream, and the FTP error taxonomy. -/
inductive PyErr where
  | assertionFailed
  | ftp (e : FTPErr)
deriving Repr, DecidableEq

/-- Whether an error is an FTPServerError, the class caught by the
fallback handler in fetch_file_listing. -/
def PyErr.isServerError : PyErr → Bool
  | .ftp (.serverReply _ _) => true
  | _ => false

/-- Modelled from the spec: wpull.ftp.util.ReplyCodes value for a syntax
error meaning the command is unrecognized (5yz class, code 500); the
numeric constants are not under src/. -/
def ReplyCodes.commandUnrecognized : Nat := 500

/-- Modelled from the spec: wpull.ftp.util.ReplyCodes value for command
not implemented (5yz class, code 502); the numeric constants are not
under src/. -/
def ReplyCodes.commandNotImplemented : Nat := 502

/-- The listing fallback test in Session.fetch_file_listing: the caught
reply code is compared against the two ReplyCodes constants. -/
def fallbackEligible (replyCode : Nat) : Bool :=
  replyCode = ReplyCodes.commandUnrecognized ||
  replyCode = ReplyCodes.commandNotImplemented

/-- Environment choice for Commander.setup_data_stream within one command
cycle: fail before the connection factory runs (nothing acquired), fail
after the factory has checked out the data connection, or succeed with
the negotiated address. -/
inductive SetupBehavior where
  | failBefore (e : FTPErr)
  | failAfter (addr : Address) (e : FTPErr)
  | ok (addr : Address)
deriving Repr, DecidableEq

/-- Environment choice for Commander.read_stream within one command
cycle: succeed with the streamed bytes and final reply, or write some
bytes and then fail. -/
inductive ReadBehavior where
  | ok (bytes : List Nat) (reply : Reply)
  | fail (bytes : List Nat) (e : FTPErr)
deriving Repr, DecidableEq

/-- The environment behaviour of one data-transfer command cycle. -/
structure CycleBehavior where
  setup : SetupBehavior
  read : ReadBehavior
deriving Repr, DecidableEq

/-- The error a command cycle raises under this environment behaviour,
if any. -/
def CycleBehavior.err : CycleBehavior → Option FTPErr
  | ⟨.failBefore e, _⟩ => some e
  | ⟨.failAfter _ e, _⟩ => some e
  | ⟨.ok _, .fail _ e⟩ => some e
  | ⟨.ok _, .ok _ _⟩ => none

/-- The bytes a command cycle writes into the sink under this
environment behaviour. -/
def CycleBehavior.written : CycleBehavior → List Nat
  | ⟨.failBefore _, _⟩ => []
  | ⟨.failAfter _ _, _⟩ => []
  | ⟨.ok _, .fail bytes _⟩ => bytes
  | ⟨.ok _, .ok bytes _⟩ => bytes

/-- The environment behaviour of a whole session call: outcomes of
Commander.reconnect and Commander.login (none meaning success), and of
the at most two command cycles a call performs. -/
structure SessionEnv where
  reconnect : Option FTPErr
  login : Option FTPErr
  cycle1 : CycleBehavior
  cycle2 : CycleBehavior
deriving Repr, DecidableEq

/-- The mutable attributes of the Session object the embedding tracks:
the control connection and the request, plus whether a recorder session
is attached (fixed at session construction). -/
structure SessionState where
  connection : Option Connection
  request : Option Request
  hasRec : Bool
deriving Repr, DecidableEq

/-- A fresh session, as built by Client._session_class. -/
def SessionState.init (hasRec : Bool) : SessionState := ⟨none, none, hasRec⟩

deriving instance DecidableEq for Except

/-- Result of one run of Session._fetch_with_command: the reply or the
propagated error, the final state of the sink, and the world after the
guaranteed-cleanup step. -/
structure CycleResult where
  result : Except PyErr Reply
  body : Body
  world : World
deriving Repr, DecidableEq

/-- Session._fetch_with_command: negotiate a data stream through a
connection factory that checks a data connection out of the pool, attach
the recorder data observer when present, drive the streamed read into
the sink, and in the finally block clear the observer and, when a data
connection was acquired, close it and check it back in.  The cycle
event marks the invocation with its command. -/
def fetchWithCommand (hasRec : Bool) (cyc : CycleBehavior) (command : Command)
    (file : Body) (w : World) : CycleResult :=
  let w0 := { w with ctrl := w.ctrl ++ [.cycle command.name command.argument] }
  match cyc.setup with
  | .failBefore e =>
      -- data_connection and data_stream are still None: the finally
      -- block performs no observer clear, no close and no check_in.
      ⟨.error (.ftp e), file, w0⟩
  | .failAfter addr e =>
      -- the connection factory ran: a data connection was checked out,
      -- then setup_data_stream failed; finally closes and checks it in.
      let (conn, w1) := w0.checkOut .data addr.host addr.port
      let w2 := (w1.closeConn conn).checkIn conn
      ⟨.error (.ftp e), file, w2⟩
  | .ok addr =>
      let (conn, w1) := w0.checkOut .data addr.host addr.port
      match cyc.read with
      | .ok bytes reply =>
          let file1 := file.write bytes
          let w2 := w1.record hasRec (.responseData bytes)
          let w3 := (w2.closeConn conn).checkIn conn
          ⟨.ok reply, file1, w3⟩
      | .fail bytes e =>
          let file1 := file.write bytes
          let w2 := w1.record hasRec (.responseData bytes)
          let w3 := (w2.closeConn conn).checkIn conn
          ⟨.error (.ftp e), file1, w3⟩

/-- Python truthiness of a string option under the or operator: a missing
or empty string falls through to the default. -/
def pyOrStr : Option String → String → String
  | none, d => d
  | some s, d => if s = "" then d else s

/-- The username Session._log_in sends: the request username or
anonymous. -/
def loginUsername (request : Request) : String :=
  pyOrStr request.url_info.username "anonymous"

/-- The password Session._log_in sends: the request password or the
placeholder. -/
def loginPassword (request : Request) : String :=
  pyOrStr request.url_info.password "-wpull@"

/-- Session._log_in: Commander.reconnect, then Commander.login with the
computed credentials; the request is the one _init_stream stored in
self._request.  Each attempted operation is logged before its outcome. -/
def logIn (env : SessionEnv) (request : Request) (w : World) :
    Except PyErr Unit × World :=
  let w1 := { w with ctrl := w.ctrl ++ [.reconnect] }
  match env.reconnect with
  | some e => (.error (.ftp e), w1)
  | none =>
      let w2 := { w1 with ctrl := w1.ctrl ++
        [.login (loginUsername request) (loginPassword request)] }
      match env.login with
      | some e => (.error (.ftp e), w2)
      | none => (.ok (), w2)

/-- Session._init_stream: assert that no control connection is held,
check one out of the pool for the request host and port, build the
control stream and commander, store the request.  The recorder control
observer attached here only mirrors traffic into the recorder log. -/
def initStream (st : SessionState) (request : Request) (w : World) :
    Except PyErr Connection × SessionState × World :=
  match st.connection with
  | some _ => (.error .assertionFailed, st, w)
  | none =>
      let (conn, w1) :=
        w.checkOut .control request.url_info.hostname request.url_info.port
      (.ok conn, { st with connection := some conn, request := some request },
       w1)

/-- Result of Session._prepare_fetch: the response body sink on success,
and on every path the final state of the caller-owned request object,
the session and the world. -/
structure PrepResult where
  result : Except PyErr Body
  request : Request
  state : SessionState
  world : World
deriving Repr, DecidableEq

/-- Session._prepare_fetch: initialize the stream, assign the connection
address to the request, emit begin_control to the recorder, log in, set
response.request, wrap the supplied file into a Body (a fresh empty body
when none is supplied), and emit pre_response. -/
def prepareFetch (env : SessionEnv) (st : SessionState) (request : Request)
    (file? : Option Body) (w : World) : PrepResult :=
  match initStream st request w with
  | (.error e, st1, w1) => ⟨.error e, request, st1, w1⟩
  | (.ok conn, st1, w1) =>
      let request1 := { request with address := some conn.address }
      let st2 := { st1 with request := some request1 }
      let w2 := w1.record st.hasRec .beginControl
      match logIn env request1 w2 with
      | (.error e, w3) => ⟨.error e, request1, st2, w3⟩
      | (.ok _, w3) =>
          let body := match file? with
            | some b => b
            | none => Body.empty
          let w4 := w3.record st.hasRec .preResponse
          ⟨.ok body, request1, st2, w4⟩

/-- Session._clean_up_fetch: seek the body to the start, record the reply
on the response, and emit the response and end_control recorder
events. -/
def cleanUpFetch (hasRec : Bool) (body : Body) (w : World) : Body × World :=
  (body.seekStart, (w.record hasRec .responseEvent).record hasRec .endControl)

/-- An FTP response: originating request, body sink and final reply
(wpull.ftp.request.Response). -/
structure Response where
  request : Option Request
  body : Body
  reply : Option Reply
deriving Repr, DecidableEq

/-- The kind of a listed file (wpull.ftp.ls FileEntry types). -/
inductive FileKind where
  | file
  | dir
  | symlink
  | other
deriving Repr, DecidableEq

/-- One decoded directory-listing entry. -/
structure FileEntry where
  name : String
  kind : FileKind
  size : Option Nat
deriving Repr, DecidableEq

/-- An FTP listing response: a response together with the decoded file
entries (wpull.ftp.request.ListingResponse). -/
structure ListingResponse where
  request : Option Request
  body : Body
  reply : Option Reply
  files : List FileEntry
deriving Repr, DecidableEq

/-- Result of a whole Session.fetch call: the response or propagated
error, and the final states of the caller-owned request object, of the
sink, of the session and of the world. -/
structure FetchResult where
  result : Except PyErr Response
  request : Request
  body : Body
  state : SessionState
  world : World
deriving Repr, DecidableEq

/-- Session.fetch: prepare, issue one RETR command cycle through the
data connection, and clean up on success; every error propagates. -/
def Session.fetch (env : SessionEnv) (st : SessionState) (request : Request)
    (file? : Option Body) (w : World) : FetchResult :=
  match prepareFetch env st request file? w with
  | ⟨.error e, req1, st1, w1⟩ =>
      ⟨.error e, req1, file?.getD Body.empty, st1, w1⟩
  | ⟨.ok body0, req1, st1, w1⟩ =>
      let c := fetchWithCommand st.hasRec env.cycle1
        ⟨"RETR", request.url_info.path⟩ body0 w1
      match c.result with
      | .error e => ⟨.error e, req1, c.body, st1, c.world⟩
      | .ok reply =>
          let (body2, w2) := cleanUpFetch st.hasRec c.body c.world
          ⟨.ok ⟨some req1, body2, some reply⟩, req1, body2, st1, w2⟩

/-- Session._get_machine_listing: one MLSD command cycle, then seek the
body to the start and decode the machine listing leniently (the decoder,
wpull.ftp.util.parse_machine_listing, is an external collaborator passed
as a total function). -/
def getMachineListing (hasRec : Bool) (cyc : CycleBehavior)
    (decodeM : List Nat → List FileEntry) (request : Request) (body : Body)
    (w : World) : Except PyErr (Reply × List FileEntry) × Body × World :=
  let c := fetchWithCommand hasRec cyc ⟨"MLSD", request.url_info.path⟩ body w
  match c.result with
  | .error e => (.error e, c.body, c.world)
  | .ok reply =>
      let (bytes, b2) := (c.body.seekStart).readAll
      (.ok (reply, decodeM bytes), b2, c.world)

/-- Session._get_list_listing: one LIST command cycle, then seek the
body to the start and decode heuristically through ListingParser (an
external collaborator passed as a total function); the text wrapper is
detached so the body stays open. -/
def getListListing (hasRec : Bool) (cyc : CycleBehavior)
    (decodeL : List Nat → List FileEntry) (request : Request) (body : Body)
    (w : World) : Except PyErr (Reply × List FileEntry) × Body × World :=
  let c := fetchWithCommand hasRec cyc ⟨"LIST", request.url_info.path⟩ body w
  match c.result with
  | .error e => (.error e, c.body, c.world)
  | .ok reply =>
      let (bytes, b2) := (c.body.seekStart).readAll
      (.ok (reply, decodeL bytes), b2, c.world)

/-- Result of a whole Session.fetch_file_listing call. -/
structure ListingResult where
  result : Except PyErr ListingResponse
  request : Request
  body : Body
  state : SessionState
  world : World
deriving Repr, DecidableEq

/-- Session.fetch_file_listing: prepare, attempt the machine listing;
when it raises an FTPServerError the body is reset (seek to start, then
truncate) and, if the reply code is commandUnrecognized or
commandNotImplemented, a single legacy LIST attempt is made, otherwise
the error is re-raised; errors of any other class propagate untouched. -/
def Session.fetchFileListing (env : SessionEnv)
    (decodeM decodeL : List Nat → List FileEntry) (st : SessionState)
    (request : Request) (file? : Option Body) (w : World) : ListingResult :=
  match prepareFetch env st request file? w with
  | ⟨.error e, req1, st1, w1⟩ =>
      ⟨.error e, req1, file?.getD Body.empty, st1, w1⟩
  | ⟨.ok body0, req1, st1, w1⟩ =>
      match getMachineListing st.hasRec env.cycle1 decodeM request body0 w1 with
      | (.ok (reply, files), body1, w2) =>
          let (body2, w3) := cleanUpFetch st.hasRec body1 w2
          ⟨.ok ⟨some req1, body2, some reply, files⟩, req1, body2, st1, w3⟩
      | (.error (.ftp (.serverReply code msg)), body1, w2) =>
          let body2 := (body1.seekStart).truncateHere
          if fallbackEligible code then
            match getListListing st.hasRec env.cycle2 decodeL request body2
                w2 with
            | (.ok (reply, files), body3, w3) =>
                let (body4, w4) := cleanUpFetch st.hasRec body3 w3
                ⟨.ok ⟨some req1, body4, some reply, files⟩, req1, body4, st1,
                 w4⟩
            | (.error e2, body3, w3) => ⟨.error e2, req1, body3, st1, w3⟩
          else
            ⟨.error (.ftp (.serverReply code msg)), req1, body2, st1, w2⟩
      | (.error e, body1, w2) => ⟨.error e, req1, body1, st1, w2⟩

/-- Session.clean: best-effort check-in of the control connection when
one is held; the connection attribute itself is left assigned. -/
def Session.clean (st : SessionState) (w : World) : SessionState × World :=
  match st.connection with
  | some c => (st, w.checkIn c)
  | none => (st, w)

/-- Session.close: hard close of the control connection when one is
held. -/
def Session.close (st : SessionState) (w : World) : SessionState × World :=
  match st.connection with
  | some c => (st, w.closeConn c)
  | none => (st, w)

/-- Whether the pool trace contains a check-in of handle i. -/
def hasCheckIn (evs : List PoolEvent) (i : Nat) : Bool :=
  evs.any fun e => e = .checkIn i

/-- Whether the pool trace contains a close of handle i. -/
def hasClose (evs : List PoolEvent) (i : Nat) : Bool :=
  evs.any fun e => e = .closeConn i

/-- The handles checked out in the data role, in trace order. -/
def dataCheckOuts (evs : List PoolEvent) : List Nat :=
  evs.filterMap fun e => match e with
    | .checkOut i .data _ _ => some i
    | _ => none

/-- The data-role handles checked out but never checked back in: the
outstanding data connections. -/
def outstandingData (evs : List PoolEvent) : List Nat :=
  (dataCheckOuts evs).filter fun i => ! hasCheckIn evs i

/-- Whether a pool event releases a handle (check-in or close). -/
def isRelease : PoolEvent → Bool
  | .checkIn _ => true
  | .closeConn _ => true
  | _ => false

/-- The command names of the data-transfer cycles attempted, in order. -/
def cycleCommands (ctrl : List CtrlEvent) : List String :=
  ctrl.filterMap fun e => match e with
    | .cycle name _ => some name
    | _ => none

/-- The login attempts made on the control channel, in order, with the
credentials sent. -/
def loginEvents (ctrl : List CtrlEvent) : List (String × String) :=
  ctrl.filterMap fun e => match e with
    | .login u p => some (u, p)
    | _ => none

/-- The result Session._fetch_with_command produces for a cycle
behaviour: the propagated error, or the final reply. -/
def cycleResultSpec : CycleBehavior → Except PyErr Reply
  | ⟨.failBefore e, _⟩ => .error (.ftp e)
  | ⟨.failAfter _ e, _⟩ => .error (.ftp e)
  | ⟨.ok _, .fail _ e⟩ => .error (.ftp e)
  | ⟨.ok _, .ok _ r⟩ => .ok r

/-- The sink after one cycle: bytes are only written once the data
stream is up. -/
def cycleBodySpec (cyc : CycleBehavior) (file : Body) : Body :=
  match cyc.setup with
  | .ok _ => file.write cyc.written
  | _ => file

/-- The pool events of one cycle, given the next fresh handle number:
nothing when negotiation fails before acquisition, otherwise a data
checkout followed by its close and check-in. -/
def cyclePoolTrace (cyc : CycleBehavior) (n : Nat) : List PoolEvent :=
  match cyc.setup with
  | .failBefore _ => []
  | .failAfter addr _ =>
      [.checkOut n .data addr.host addr.port, .closeConn n, .checkIn n]
  | .ok addr =>
      [.checkOut n .data addr.host addr.port, .closeConn n, .checkIn n]

/-- The fresh-handle counter after one cycle. -/
def cycleNextId (cyc : CycleBehavior) (n : Nat) : Nat :=
  match cyc.setup with
  | .failBefore _ => n
  | _ => n + 1

/-- The recorder events of one cycle: the read bytes, only when the data
stream was up and a recorder is attached. -/
def cycleRecTrace (hasRec : Bool) (cyc : CycleBehavior) : List RecEvent :=
  match cyc.setup with
  | .ok _ => if hasRec then [.responseData cyc.written] else []
  | _ => []

/-- The pool events a call added to the world it started from. -/
def newEvents (w wFinal : World) : List PoolEvent :=
  wFinal.events.drop w.events.length

/-- The handles checked out in the control role, in trace order. -/
def controlCheckOuts (evs : List PoolEvent) : List Nat :=
  evs.filterMap fun e => match e with
    | .checkOut i .control _ _ => some i
    | _ => none

/-- A sample URL for concrete executions. -/
def sampleURL : URLInfo := ⟨"ftp", "example.com", 21, "/pub/a.txt", none, none⟩

/-- A sample request for concrete executions. -/
def sampleRequest : Request := ⟨sampleURL, none⟩

/-- A sample control connection for concrete executions. -/
def sampleConn : Connection := ⟨0, ⟨"example.com", 21⟩⟩

/-- A sample environment in which every step succeeds. -/
def sampleEnvOk : SessionEnv :=
  ⟨none, none, ⟨.ok ⟨"1.2.3.4", 5000⟩, .ok [104, 105] ⟨226, "done"⟩⟩,
   ⟨.ok ⟨"1.2.3.4", 5001⟩, .ok [1, 2, 3] ⟨226, "done"⟩⟩⟩

/-- A sample environment whose machine listing writes three bytes and
fails with code 500, and whose legacy attempt succeeds. -/
def sampleEnvFallback : SessionEnv :=
  ⟨none, none, ⟨.ok ⟨"d", 5⟩, .fail [9, 9, 9] (.serverReply 500 "syn")⟩,
   ⟨.ok ⟨"d", 6⟩, .ok [1, 2] ⟨226, "ok"⟩⟩⟩

/-- A sample environment whose machine listing fails with the
non-eligible code 550. -/
def sampleEnvTerminal : SessionEnv :=
  ⟨none, none, ⟨.ok ⟨"d", 5⟩, .fail [9, 9, 9] (.serverReply 550 "no")⟩,
   ⟨.ok ⟨"d", 6⟩, .ok [1, 2] ⟨226, "ok"⟩⟩⟩

/-- A sample environment where the machine listing fails with code 502
and the legacy attempt fails with code 425. -/
def sampleEnvDoubleFail : SessionEnv :=
  ⟨none, none, ⟨.ok ⟨"d", 5⟩, .fail [9, 9, 9] (.serverReply 502 "nia")⟩,
   ⟨.ok ⟨"d", 6⟩, .fail [1] (.serverReply 425 "cant")⟩⟩

/-- The request object after a call: unchanged when the assertion fires,
otherwise with the control-connection address assigned. -/
def finalRequest (st : SessionState) (request : Request) : Request :=
  match st.connection with
  | some _ => request
  | none => { request with
      address := some ⟨request.url_info.hostname, request.url_info.port⟩ }

/-- The session attributes after a call: unchanged when the assertion
fires, otherwise holding the control connection and the request. -/
def finalSessionState (st : SessionState) (request : Request) (n : Nat) :
    SessionState :=
  match st.connection with
  | some _ => st
  | none =>
      ⟨some ⟨n, ⟨request.url_info.hostname, request.url_info.port⟩⟩,
       some (finalRequest st request), st.hasRec⟩

/-- The error with which _prepare_fetch fails, if any: the held-connection
assertion, then reconnect, then login. -/
def prepErr (env : SessionEnv) (st : SessionState) : Option PyErr :=
  match st.connection with
  | some _ => some .assertionFailed
  | none =>
      match env.reconnect with
      | some e => some (.ftp e)
      | none =>
          match env.login with
          | some e => some (.ftp e)
          | none => none

/-- The result of Session.fetch: a preparation error, the RETR cycle
error, or the response with the reply and the streamed body. -/
def fetchResultSpec (env : SessionEnv) (st : SessionState) (request : Request)
    (file? : Option Body) : Except PyErr Response :=
  match prepErr env st with
  | some e => .error e
  | none =>
      match cycleResultSpec env.cycle1 with
      | .error e => .error e
      | .ok reply =>
          .ok ⟨some (finalRequest st request),
               (cycleBodySpec env.cycle1 (file?.getD Body.empty)).seekStart,
               some reply⟩

/-- The final sink of Session.fetch. -/
def fetchBodySpec (env : SessionEnv) (st : SessionState)
    (file? : Option Body) : Body :=
  match prepErr env st with
  | some _ => file?.getD Body.empty
  | none =>
      match cycleResultSpec env.cycle1 with
      | .error _ => cycleBodySpec env.cycle1 (file?.getD Body.empty)
      | .ok _ => (cycleBodySpec env.cycle1 (file?.getD Body.empty)).seekStart

/-- The pool events of one Session.fetch call. -/
def fetchPoolTrace (env : SessionEnv) (st : SessionState) (request : Request)
    (n : Nat) : List PoolEvent :=
  match st.connection with
  | some _ => []
  | none =>
      .checkOut n .control request.url_info.hostname request.url_info.port ::
      (match env.reconnect with
       | some _ => []
       | none =>
           match env.login with
           | some _ => []
           | none => cyclePoolTrace env.cycle1 (n + 1))

/-- The control-channel events of one Session.fetch call. -/
def fetchCtrlTrace (env : SessionEnv) (st : SessionState)
    (request : Request) : List CtrlEvent :=
  match st.connection with
  | some _ => []
  | none =>
      .reconnect ::
      (match env.reconnect with
       | some _ => []
       | none =>
           .login (loginUsername request) (loginPassword request) ::
           (match env.login with
            | some _ => []
            | none => [.cycle "RETR" request.url_info.path]))

/-- The recorder events of one Session.fetch call. -/
def fetchRecTrace (env : SessionEnv) (st : SessionState) : List RecEvent :=
  match st.connection with
  | some _ => []
  | none =>
      if st.hasRec then
        .beginControl ::
        (match env.reconnect with
         | some _ => []
         | none =>
             match env.login with
             | some _ => []
             | none =>
                 [.preResponse] ++ cycleRecTrace true env.cycle1 ++
                 (match cycleResultSpec env.cycle1 with
                  | .error _ => []
                  | .ok _ => [.responseEvent, .endControl]))
      else []

/-- The fresh-handle counter after one Session.fetch call. -/
def fetchNextId (env : SessionEnv) (st : SessionState) (n : Nat) : Nat :=
  match st.connection with
  | some _ => n
  | none =>
      match env.reconnect with
      | some _ => n + 1
      | none =>
          match env.login with
          | some _ => n + 1
          | none => cycleNextId env.cycle1 (n + 1)

/-- The result of Session.fetch_file_listing: a preparation error, the
machine-listing outcome, and on a fallback-eligible server reply the
outcome of the single legacy attempt over a reset sink. -/
def listingResultSpec (env : SessionEnv)
    (decodeM decodeL : List Nat → List FileEntry) (st : SessionState)
    (request : Request) (file? : Option Body) : Except PyErr ListingResponse :=
  match prepErr env st with
  | some e => .error e
  | none =>
      match cycleResultSpec env.cycle1 with
      | .ok reply =>
          .ok ⟨some (finalRequest st request),
               (cycleBodySpec env.cycle1 (file?.getD Body.empty)).seekStart,
               some reply,
               decodeM (cycleBodySpec env.cycle1 (file?.getD Body.empty)).data⟩
      | .error (.ftp (.serverReply code msg)) =>
          if fallbackEligible code then
            match cycleResultSpec env.cycle2 with
            | .ok reply =>
                .ok ⟨some (finalRequest st request),
                     (cycleBodySpec env.cycle2 Body.empty).seekStart,
                     some reply,
                     decodeL (cycleBodySpec env.cycle2 Body.empty).data⟩
            | .error e2 => .error e2
          else .error (.ftp (.serverReply code msg))
      | .error e => .error e

/-- The final sink of Session.fetch_file_listing: reset to empty on any
server-reply error of the machine attempt, then holding only what the
legacy attempt wrote. -/
def listingBodySpec (env : SessionEnv) (st : SessionState)
    (file? : Option Body) : Body :=
  match prepErr env st with
  | some _ => file?.getD Body.empty
  | none =>
      match cycleResultSpec env.cycle1 with
      | .ok _ => (cycleBodySpec env.cycle1 (file?.getD Body.empty)).seekStart
      | .error (.ftp (.serverReply code _)) =>
          if fallbackEligible code then
            match cycleResultSpec env.cycle2 with
            | .ok _ => (cycleBodySpec env.cycle2 Body.empty).seekStart
            | .error _ => cycleBodySpec env.cycle2 Body.empty
          else Body.empty
      | .error _ => cycleBodySpec env.cycle1 (file?.getD Body.empty)

/-- The pool events of one Session.fetch_file_listing call. -/
def listingPoolTrace (env : SessionEnv) (st : SessionState)
    (request : Request) (n : Nat) : List PoolEvent :=
  match st.connection with
  | some _ => []
  | none =>
      .checkOut n .control request.url_info.hostname request.url_info.port ::
      (match env.reconnect with
       | some _ => []
       | none =>
           match env.login with
           | some _ => []
           | none =>
               cyclePoolTrace env.cycle1 (n + 1) ++
               (match cycleResultSpec env.cycle1 with
                | .error (.ftp (.serverReply code _)) =>
                    if fallbackEligible code then
                      cyclePoolTrace env.cycle2 (cycleNextId env.cycle1 (n + 1))
                    else []
                | _ => []))

/-- The control-channel events of one Session.fetch_file_listing call. -/
def listingCtrlTrace (env : SessionEnv) (st : SessionState)
    (request : Request) : List CtrlEvent :=
  match st.connection with
  | some _ => []
  | none =>
      .reconnect ::
      (match env.reconnect with
       | some _ => []
       | none =>
           .login (loginUsername request) (loginPassword request) ::
           (match env.login with
            | some _ => []
            | none =>
                .cycle "MLSD" request.url_info.path ::
                (match cycleResultSpec env.cycle1 with
                 | .error (.ftp (.serverReply code _)) =>
                     if fallbackEligible code then
                       [.cycle "LIST" request.url_info.path]
                     else []
                 | _ => [])))

/-- The recorder events of one Session.fetch_file_listing call. -/
def listingRecTrace (env : SessionEnv) (st : SessionState) : List RecEvent :=
  match st.connection with
  | some _ => []
  | none =>
      if st.hasRec then
        .beginControl ::
        (match env.reconnect with
         | some _ => []
         | none =>
             match env.login with
             | some _ => []
             | none =>
                 [.preResponse] ++ cycleRecTrace true env.cycle1 ++
                 (match cycleResultSpec env.cycle1 with
                  | .ok _ => [.responseEvent, .endControl]
                  | .error (.ftp (.serverReply code _)) =>
                      if fallbackEligible code then
                        cycleRecTrace true env.cycle2 ++
                        (match cycleResultSpec env.cycle2 with
                         | .ok _ => [.responseEvent, .endControl]
                         | .error _ => [])
                      else []
                  | .error _ => []))
      else []

/-- The fresh-handle counter after one Session.fetch_file_listing
call. -/
def listingNextId (env : SessionEnv) (st : SessionState) (n : Nat) : Nat :=
  match st.connection with
  | some _ => n
  | none =>
      match env.reconnect with
      | some _ => n + 1
      | none =>
          match env.login with
          | some _ => n + 1
          | none =>
              match cycleResultSpec env.cycle1 with
              | .error (.ftp (.serverReply code _)) =>
                  if fallbackEligible code then
                    cycleNextId env.cycle2 (cycleNextId env.cycle1 (n + 1))
                  else cycleNextId env.cycle1 (n + 1)
              | _ => cycleNextId env.cycle1 (n + 1)

/-- Characterization of Session._fetch_with_command: its result, final
sink and world, for every cycle behaviour. -/
theorem fetchWithCommand_spec (hasRec : Bool) (cyc : CycleBehavior)
    (cmd : Command) (file : Body) (w : World) :
    fetchWithCommand hasRec cyc cmd file w =
      ⟨cycleResultSpec cyc, cycleBodySpec cyc file,
       ⟨cycleNextId cyc w.nextId,
        w.events ++ cyclePoolTrace cyc w.nextId,
        w.ctrl ++ [.cycle cmd.name cmd.argument],
        w.recLog ++ cycleRecTrace hasRec cyc⟩⟩ := by
  obtain ⟨s, r⟩ := cyc
  cases s <;> cases r <;>
    cases hasRec <;>
      simp [fetchWithCommand, cycleResultSpec, cycleBodySpec, cyclePoolTrace,
        cycleNextId, cycleRecTrace, CycleBehavior.written, World.checkOut,
        World.checkIn, World.closeConn, World.record]

/-- Characterization of Session.fetch: its result and the final request,
sink, session and world, for every environment and starting state. -/
theorem fetch_run_spec (env : SessionEnv) (st : SessionState)
    (request : Request) (file? : Option Body) (w : World) :
    Session.fetch env st request file? w =
      ⟨fetchResultSpec env st request file?,
       finalRequest st request,
       fetchBodySpec env st file?,
       finalSessionState st request w.nextId,
       ⟨fetchNextId env st w.nextId,
        w.events ++ fetchPoolTrace env st request w.nextId,
        w.ctrl ++ fetchCtrlTrace env st request,
        w.recLog ++ fetchRecTrace env st⟩⟩ := by
  obtain ⟨rec, log, c1, c2⟩ := env
  obtain ⟨conn, reqq, hr⟩ := st
  cases conn with
  | some c =>
      simp [Session.fetch, prepareFetch, initStream, fetchResultSpec,
        finalRequest, fetchBodySpec, finalSessionState, fetchNextId,
        fetchPoolTrace, fetchCtrlTrace, fetchRecTrace, prepErr]
  | none =>
      obtain ⟨s1, r1⟩ := c1
      cases rec <;> cases log <;> cases s1 <;> cases r1 <;> cases hr <;>
        cases file? <;>
        simp [Session.fetch, prepareFetch, initStream, logIn, cleanUpFetch,
          fetchWithCommand_spec, World.checkOut, World.record,
          fetchResultSpec, finalRequest, fetchBodySpec, finalSessionState,
          fetchNextId, fetchPoolTrace, fetchCtrlTrace, fetchRecTrace, prepErr,
          cycleResultSpec, cycleBodySpec, cyclePoolTrace, cycleNextId,
          cycleRecTrace, loginUsername, loginPassword]

/-- Without a recorder, a cycle delivers no recorder events. -/
theorem cycleRecTrace_false (cyc : CycleBehavior) :
    cycleRecTrace false cyc = [] := by
  obtain ⟨s, r⟩ := cyc
  cases s <;> simp [cycleRecTrace]

set_option maxHeartbeats 3200000 in
/-- Characterization of Session.fetch_file_listing: its result and the
final request, sink, session and world, for every environment and
starting state. -/
theorem listing_run_spec (env : SessionEnv)
    (decodeM decodeL : List Nat → List FileEntry) (st : SessionState)
    (request : Request) (file? : Option Body) (w : World) :
    Session.fetchFileListing env decodeM decodeL st request file? w =
      ⟨listingResultSpec env decodeM decodeL st request file?,
       finalRequest st request,
       listingBodySpec env st file?,
       finalSessionState st request w.nextId,
       ⟨listingNextId env st w.nextId,
        w.events ++ listingPoolTrace env st request w.nextId,
        w.ctrl ++ listingCtrlTrace env st request,
        w.recLog ++ listingRecTrace env st⟩⟩ := by
  obtain ⟨rec, log, c1, c2⟩ := env
  obtain ⟨conn, reqq, hr⟩ := st
  cases conn with
  | some c =>
      simp [Session.fetchFileListing, prepareFetch, initStream,
        listingResultSpec, finalRequest, listingBodySpec, finalSessionState,
        listingNextId, listingPoolTrace, listingCtrlTrace, listingRecTrace,
        prepErr]
  | none =>
      cases rec with
      | some e =>
          cases hr <;>
            simp [Session.fetchFileListing, prepareFetch, initStream, logIn,
              listingResultSpec, finalRequest, listingBodySpec,
              finalSessionState, listingNextId, listingPoolTrace,
              listingCtrlTrace, listingRecTrace, prepErr, World.checkOut,
              World.record]
      | none =>
          cases log with
          | some e =>
              cases hr <;>
                simp [Session.fetchFileListing, prepareFetch, initStream,
                  logIn, listingResultSpec, finalRequest, listingBodySpec,
                  finalSessionState, listingNextId, listingPoolTrace,
                  listingCtrlTrace, listingRecTrace, prepErr, World.checkOut,
                  World.record, loginUsername, loginPassword]
          | none =>
              obtain ⟨s1, r1⟩ := c1
              obtain ⟨s2, r2⟩ := c2
              cases s1 with
              | failBefore e1 =>
                  cases e1 <;> cases r1 <;>
                    (try cases s2 <;> cases r2) <;>
                    cases file? <;> cases hr <;>
                    simp [Session.fetchFileListing, prepareFetch, initStream,
                      logIn, cleanUpFetch, getMachineListing, getListListing,
                      fetchWithCommand_spec, World.checkOut, World.record,
                      listingResultSpec, finalRequest, listingBodySpec,
                      finalSessionState, listingNextId, listingPoolTrace,
                      listingCtrlTrace, listingRecTrace, prepErr,
                      cycleResultSpec, cycleBodySpec, cyclePoolTrace,
                      cycleNextId, cycleRecTrace, cycleRecTrace_false,
                      loginUsername, loginPassword, Body.seekStart,
                      Body.truncateHere, Body.readAll, Body.empty] <;>
                    (try split_ifs) <;> (try simp)
              | failAfter a1 e1 =>
                  cases e1 <;> cases r1 <;>
                    (try cases s2 <;> cases r2) <;>
                    cases file? <;> cases hr <;>
                    simp [Session.fetchFileListing, prepareFetch, initStream,
                      logIn, cleanUpFetch, getMachineListing, getListListing,
                      fetchWithCommand_spec, World.checkOut, World.record,
                      listingResultSpec, finalRequest, listingBodySpec,
                      finalSessionState, listingNextId, listingPoolTrace,
                      listingCtrlTrace, listingRecTrace, prepErr,
                      cycleResultSpec, cycleBodySpec, cyclePoolTrace,
                      cycleNextId, cycleRecTrace, cycleRecTrace_false,
                      loginUsername, loginPassword, Body.seekStart,
                      Body.truncateHere, Body.readAll, Body.empty] <;>
                    (try split_ifs) <;> (try simp)
              | ok a1 =>
                  cases r1 with
                  | ok bs rep =>
                      cases file? <;> cases hr <;>
                        simp [Session.fetchFileListing, prepareFetch,
                          initStream, logIn, cleanUpFetch, getMachineListing,
                          getListListing, fetchWithCommand_spec,
                          World.checkOut, World.record, listingResultSpec,
                          finalRequest, listingBodySpec, finalSessionState,
                          listingNextId, listingPoolTrace, listingCtrlTrace,
                          listingRecTrace, prepErr, cycleResultSpec,
                          cycleBodySpec, cyclePoolTrace, cycleNextId,
                          cycleRecTrace, cycleRecTrace_false, loginUsername,
                          loginPassword, Body.seekStart, Body.truncateHere,
                          Body.readAll, Body.empty]
                  | fail bs e1 =>
                      cases e1 <;>
                        (try cases s2 <;> cases r2) <;>
                        cases file? <;> cases hr <;>
                        simp [Session.fetchFileListing, prepareFetch,
                          initStream, logIn, cleanUpFetch, getMachineListing,
                          getListListing, fetchWithCommand_spec,
                          World.checkOut, World.record, listingResultSpec,
                          finalRequest, listingBodySpec, finalSessionState,
                          listingNextId, listingPoolTrace, listingCtrlTrace,
                          listingRecTrace, prepErr, cycleResultSpec,
                          cycleBodySpec, cyclePoolTrace, cycleNextId,
                          cycleRecTrace, cycleRecTrace_false, loginUsername,
                          loginPassword, Body.seekStart, Body.truncateHere,
                          Body.readAll, Body.empty] <;>
                        (try split_ifs) <;> (try simp)

/-- C3 counterexample: on a session holding the control connection,
calling clean twice is observably different on the pool from calling it
once — the same handle is checked in twice, because clean does not clear
the connection attribute. -/
theorem clean_twice_differs_from_once :
    (Session.clean (Session.clean ⟨some sampleConn, none, false⟩ World.init).1
        (Session.clean ⟨some sampleConn, none, false⟩ World.init).2).2.events ≠
      (Session.clean ⟨some sampleConn, none, false⟩ World.init).2.events := by
  decide

/-- C3 amended: clean never mutates the session, so a second clean
repeats the check-in of the same control connection instead of being a
no-op; clean with no connection acquired leaves everything unchanged and
never raises; close after clean is safe and merely closes the
already-returned connection. -/
theorem clean_clean_close_characterization (st : SessionState) (w : World) :
    (Session.clean st w).1 = st ∧
    Session.clean (Session.clean st w).1 (Session.clean st w).2 =
      (st, match st.connection with
        | some c => (w.checkIn c).checkIn c
        | none => w) ∧
    (st.connection = none → Session.clean st w = (st, w)) ∧
    Session.close (Session.clean st w).1 (Session.clean st w).2 =
      (st, match st.connection with
        | some c => (w.checkIn c).closeConn c
        | none => w) := by
  rcases st with ⟨conn, r, hr⟩
  cases conn <;> simp [Session.clean, Session.close]

/-- C3 witness: the amended characterization evaluated on a fresh
session with no connection. -/
theorem clean_clean_close_characterization_witness :
    (Session.clean ⟨none, none, false⟩ World.init).1 =
      (⟨none, none, false⟩ : SessionState) ∧
    Session.clean (Session.clean ⟨none, none, false⟩ World.init).1
        (Session.clean ⟨none, none, false⟩ World.init).2 =
      ((⟨none, none, false⟩ : SessionState), World.init) ∧
    Session.clean ⟨none, none, false⟩ World.init =
      ((⟨none, none, false⟩ : SessionState), World.init) ∧
    Session.close (Session.clean ⟨none, none, false⟩ World.init).1
        (Session.clean ⟨none, none, false⟩ World.init).2 =
      ((⟨none, none, false⟩ : SessionState), World.init) :=
  ⟨(clean_clean_close_characterization ⟨none, none, false⟩ World.init).1,
   (clean_clean_close_characterization ⟨none, none, false⟩ World.init).2.1,
   (clean_clean_close_characterization ⟨none, none, false⟩ World.init).2.2.1
     rfl,
   (clean_clean_close_characterization ⟨none, none, false⟩ World.init).2.2.2⟩

/-- C1: in Session._fetch_with_command, a data connection checked out of
the pool is closed and checked back in before the step returns or
propagates an error; when none was acquired, no close or check-in is
attempted; and after every completed or failed fetch or
fetch_file_listing call the session has zero outstanding data
connections. -/
theorem data_connection_release_invariant (hasRec : Bool)
    (cyc : CycleBehavior) (cmd : Command) (file : Body) (w : World)
    (env : SessionEnv) (decodeM decodeL : List Nat → List FileEntry)
    (st : SessionState) (request : Request) (file? : Option Body) :
    (∀ i ∈ dataCheckOuts
        (newEvents w (fetchWithCommand hasRec cyc cmd file w).world),
      hasCheckIn (newEvents w (fetchWithCommand hasRec cyc cmd file w).world)
          i = true ∧
        hasClose (newEvents w (fetchWithCommand hasRec cyc cmd file w).world)
          i = true) ∧
    (dataCheckOuts (newEvents w (fetchWithCommand hasRec cyc cmd file w).world)
        = [] →
      (newEvents w (fetchWithCommand hasRec cyc cmd file w).world).filter
          isRelease = []) ∧
    outstandingData (newEvents w (Session.fetch env st request file? w).world)
      = [] ∧
    outstandingData (newEvents w
      (Session.fetchFileListing env decodeM decodeL st request file? w).world)
      = [] := by
  refine ⟨?_, ?_, ?_, ?_⟩
  · rw [fetchWithCommand_spec]
    obtain ⟨s, r⟩ := cyc
    cases s <;>
      simp [newEvents, cyclePoolTrace, dataCheckOuts, hasCheckIn, hasClose]
  · rw [fetchWithCommand_spec]
    obtain ⟨s, r⟩ := cyc
    cases s <;>
      simp [newEvents, cyclePoolTrace, dataCheckOuts, isRelease]
  · rw [fetch_run_spec]
    obtain ⟨rec, log, c1, c2⟩ := env
    obtain ⟨conn, reqq, hrc⟩ := st
    obtain ⟨s1, r1⟩ := c1
    cases conn <;> cases rec <;> cases log <;> cases s1 <;>
      simp [newEvents, fetchPoolTrace, cyclePoolTrace, outstandingData,
        dataCheckOuts, hasCheckIn]
  · rw [listing_run_spec]
    obtain ⟨rec, log, c1, c2⟩ := env
    obtain ⟨conn, reqq, hrc⟩ := st
    cases conn with
    | some c =>
        simp [newEvents, listingPoolTrace, outstandingData, dataCheckOuts]
    | none =>
        cases rec with
        | some e =>
            simp [newEvents, listingPoolTrace, outstandingData, dataCheckOuts,
              hasCheckIn]
        | none =>
            cases log with
            | some e =>
                simp [newEvents, listingPoolTrace, outstandingData,
                  dataCheckOuts, hasCheckIn]
            | none =>
                obtain ⟨s1, r1⟩ := c1
                obtain ⟨s2, r2⟩ := c2
                cases s1 with
                | failBefore e1 =>
                    cases e1 <;> cases s2 <;>
                      (try simp only [listingPoolTrace, cycleResultSpec]) <;>
                      (try split_ifs) <;>
                      simp [newEvents, listingPoolTrace, cyclePoolTrace,
                        cycleResultSpec, cycleNextId, outstandingData,
                        dataCheckOuts, hasCheckIn]
                | failAfter a1 e1 =>
                    cases e1 <;> cases s2 <;>
                      (try simp only [listingPoolTrace, cycleResultSpec]) <;>
                      (try split_ifs) <;>
                      simp [newEvents, listingPoolTrace, cyclePoolTrace,
                        cycleResultSpec, cycleNextId, outstandingData,
                        dataCheckOuts, hasCheckIn]
                | ok a1 =>
                    cases r1 with
                    | ok bs rep =>
                        simp [newEvents, listingPoolTrace, cyclePoolTrace,
                          cycleResultSpec, cycleNextId, outstandingData,
                          dataCheckOuts, hasCheckIn]
                    | fail bs e1 =>
                        cases e1 <;> cases s2 <;>
                          (try simp only [listingPoolTrace,
                            cycleResultSpec]) <;>
                          (try split_ifs) <;>
                          simp [newEvents, listingPoolTrace, cyclePoolTrace,
                            cycleResultSpec, cycleNextId, outstandingData,
                            dataCheckOuts, hasCheckIn]

/-- C1 witness: the release invariant evaluated on concrete cycles and
on a concrete successful session run. -/
theorem data_connection_release_invariant_witness :
    (hasCheckIn (newEvents World.init (fetchWithCommand false
        ⟨.ok ⟨"d", 5⟩, .ok [1] ⟨226, "x"⟩⟩ ⟨"RETR", "/"⟩ Body.empty
        World.init).world) 0 = true ∧
      hasClose (newEvents World.init (fetchWithCommand false
        ⟨.ok ⟨"d", 5⟩, .ok [1] ⟨226, "x"⟩⟩ ⟨"RETR", "/"⟩ Body.empty
        World.init).world) 0 = true) ∧
    (newEvents World.init (fetchWithCommand false
        ⟨.failBefore .connectionError, .ok [] ⟨0, ""⟩⟩ ⟨"RETR", "/"⟩
        Body.empty World.init).world).filter isRelease = [] ∧
    outstandingData (newEvents World.init (Session.fetch sampleEnvOk
      (SessionState.init false) sampleRequest none World.init).world) = [] ∧
    outstandingData (newEvents World.init (Session.fetchFileListing
      sampleEnvOk (fun _ => []) (fun _ => []) (SessionState.init false)
      sampleRequest none World.init).world) = [] :=
  ⟨(data_connection_release_invariant false
      ⟨.ok ⟨"d", 5⟩, .ok [1] ⟨226, "x"⟩⟩ ⟨"RETR", "/"⟩ Body.empty World.init
      sampleEnvOk (fun _ => []) (fun _ => []) (SessionState.init false)
      sampleRequest none).1 0 (by decide),
   (data_connection_release_invariant false
      ⟨.failBefore .connectionError, .ok [] ⟨0, ""⟩⟩ ⟨"RETR", "/"⟩ Body.empty
      World.init sampleEnvOk (fun _ => []) (fun _ => [])
      (SessionState.init false) sampleRequest none).2.1 (by decide),
   (data_connection_release_invariant false
      ⟨.ok ⟨"d", 5⟩, .ok [1] ⟨226, "x"⟩⟩ ⟨"RETR", "/"⟩ Body.empty World.init
      sampleEnvOk (fun _ => []) (fun _ => []) (SessionState.init false)
      sampleRequest none).2.2.1,
   (data_connection_release_invariant false
      ⟨.ok ⟨"d", 5⟩, .ok [1] ⟨226, "x"⟩⟩ ⟨"RETR", "/"⟩ Body.empty World.init
      sampleEnvOk (fun _ => []) (fun _ => []) (SessionState.init false)
      sampleRequest none).2.2.2⟩

/-- A cycle whose behaviour carries an error produces exactly that
error. -/
theorem cycleResultSpec_of_err (cyc : CycleBehavior) (e : FTPErr)
    (h : cyc.err = some e) : cycleResultSpec cyc = .error (.ftp e) := by
  obtain ⟨s, r⟩ := cyc
  cases s <;> cases r <;> simp_all [CycleBehavior.err, cycleResultSpec]

/-- C2: when the machine-listing attempt raises a server-reply error,
the legacy LIST attempt is issued exactly when the reply code is
commandUnrecognized or commandNotImplemented; for any other code the
error propagates unchanged and no legacy attempt is made. -/
theorem listing_fallback_decision (env : SessionEnv)
    (decodeM decodeL : List Nat → List FileEntry) (st : SessionState)
    (request : Request) (file? : Option Body) (w : World) (code : Nat)
    (msg : String) (hconn : st.connection = none)
    (hrec : env.reconnect = none) (hlog : env.login = none)
    (herr : env.cycle1.err = some (.serverReply code msg)) :
    ((code = ReplyCodes.commandUnrecognized ∨
        code = ReplyCodes.commandNotImplemented) →
      cycleCommands (Session.fetchFileListing env decodeM decodeL st request
          file? w).world.ctrl = cycleCommands w.ctrl ++ ["MLSD", "LIST"]) ∧
    (¬(code = ReplyCodes.commandUnrecognized ∨
        code = ReplyCodes.commandNotImplemented) →
      (Session.fetchFileListing env decodeM decodeL st request file? w).result
          = .error (.ftp (.serverReply code msg)) ∧
      cycleCommands (Session.fetchFileListing env decodeM decodeL st request
          file? w).world.ctrl = cycleCommands w.ctrl ++ ["MLSD"]) := by
  rw [listing_run_spec]
  have hres : cycleResultSpec env.cycle1 = .error (.ftp (.serverReply code
      msg)) := cycleResultSpec_of_err _ _ herr
  constructor
  · intro hc
    have helig : fallbackEligible code = true := by
      rcases hc with h | h <;> simp [fallbackEligible, h]
    simp [listingCtrlTrace, hconn, hrec, hlog, hres, helig, cycleCommands]
  · intro hc
    push_neg at hc
    have helig : fallbackEligible code = false := by
      simp [fallbackEligible, hc.1, hc.2]
    constructor
    · simp [listingResultSpec, prepErr, hconn, hrec, hlog, hres, helig]
    · simp [listingCtrlTrace, hconn, hrec, hlog, hres, helig, cycleCommands]

/-- C2 witness: the fallback decision evaluated on concrete runs with
reply codes 500 and 550. -/
theorem listing_fallback_decision_witness :
    cycleCommands (Session.fetchFileListing sampleEnvFallback (fun _ => [])
        (fun _ => []) (SessionState.init false) sampleRequest none
        World.init).world.ctrl = cycleCommands World.init.ctrl ++
      ["MLSD", "LIST"] ∧
    ((Session.fetchFileListing sampleEnvTerminal (fun _ => []) (fun _ => [])
        (SessionState.init false) sampleRequest none World.init).result =
      .error (.ftp (.serverReply 550 "no")) ∧
     cycleCommands (Session.fetchFileListing sampleEnvTerminal (fun _ => [])
        (fun _ => []) (SessionState.init false) sampleRequest none
        World.init).world.ctrl = cycleCommands World.init.ctrl ++ ["MLSD"]) :=
  ⟨(listing_fallback_decision sampleEnvFallback (fun _ => []) (fun _ => [])
      (SessionState.init false) sampleRequest none World.init 500 "syn"
      rfl rfl rfl rfl).1 (Or.inl rfl),
   (listing_fallback_decision sampleEnvTerminal (fun _ => []) (fun _ => [])
      (SessionState.init false) sampleRequest none World.init 550 "no"
      rfl rfl rfl rfl).2 (by decide)⟩

/-- C5: the fallback is single-shot — when the legacy attempt also
fails, its own error (not the machine-listing error) propagates, and
exactly the two listing cycles MLSD then LIST were attempted. -/
theorem listing_fallback_single_shot (env : SessionEnv)
    (decodeM decodeL : List Nat → List FileEntry) (st : SessionState)
    (request : Request) (file? : Option Body) (w : World) (code : Nat)
    (msg : String) (e2 : FTPErr) (hconn : st.connection = none)
    (hrec : env.reconnect = none) (hlog : env.login = none)
    (herr : env.cycle1.err = some (.serverReply code msg))
    (helig : code = ReplyCodes.commandUnrecognized ∨
      code = ReplyCodes.commandNotImplemented)
    (herr2 : env.cycle2.err = some e2) :
    (Session.fetchFileListing env decodeM decodeL st request file? w).result
        = .error (.ftp e2) ∧
    cycleCommands (Session.fetchFileListing env decodeM decodeL st request
        file? w).world.ctrl = cycleCommands w.ctrl ++ ["MLSD", "LIST"] := by
  rw [listing_run_spec]
  have hres : cycleResultSpec env.cycle1 = .error (.ftp (.serverReply code
      msg)) := cycleResultSpec_of_err _ _ herr
  have hres2 : cycleResultSpec env.cycle2 = .error (.ftp e2) :=
    cycleResultSpec_of_err _ _ herr2
  have heligb : fallbackEligible code = true := by
    rcases helig with h | h <;> simp [fallbackEligible, h]
  constructor
  · simp [listingResultSpec, prepErr, hconn, hrec, hlog, hres, hres2, heligb]
  · simp [listingCtrlTrace, hconn, hrec, hlog, hres, heligb, cycleCommands]

/-- C5 witness: a doubly failed listing on a concrete run surfaces the
legacy error 425, not the original 502. -/
theorem listing_fallback_single_shot_witness :
    (Session.fetchFileListing sampleEnvDoubleFail (fun _ => []) (fun _ => [])
        (SessionState.init false) sampleRequest none World.init).result =
      .error (.ftp (.serverReply 425 "cant")) ∧
    cycleCommands (Session.fetchFileListing sampleEnvDoubleFail (fun _ => [])
        (fun _ => []) (SessionState.init false) sampleRequest none
        World.init).world.ctrl = cycleCommands World.init.ctrl ++
      ["MLSD", "LIST"] :=
  listing_fallback_single_shot sampleEnvDoubleFail (fun _ => []) (fun _ => [])
    (SessionState.init false) sampleRequest none World.init 502 "nia"
    (.serverReply 425 "cant") rfl rfl rfl rfl (Or.inr rfl) rfl

/-- C4: on a fallback-eligible server-reply error the sink is reset to
empty (seek to start then truncate yields the empty body) before the
legacy attempt, so the final sink content is exactly what the legacy
attempt wrote, never a concatenation with the failed machine attempt's
bytes. -/
theorem listing_fallback_sink_reset (env : SessionEnv)
    (decodeM decodeL : List Nat → List FileEntry) (st : SessionState)
    (request : Request) (file? : Option Body) (w : World) (code : Nat)
    (msg : String) (hconn : st.connection = none)
    (hrec : env.reconnect = none) (hlog : env.login = none)
    (herr : env.cycle1.err = some (.serverReply code msg))
    (helig : code = ReplyCodes.commandUnrecognized ∨
      code = ReplyCodes.commandNotImplemented) :
    (∀ b : Body, (Body.seekStart b).truncateHere = Body.empty) ∧
    (Session.fetchFileListing env decodeM decodeL st request file? w).body.data
      = env.cycle2.written := by
  have hres : cycleResultSpec env.cycle1 = .error (.ftp (.serverReply code
      msg)) := cycleResultSpec_of_err _ _ herr
  have heligb : fallbackEligible code = true := by
    rcases helig with h | h <;> simp [fallbackEligible, h]
  constructor
  · intro b
    simp [Body.seekStart, Body.truncateHere, Body.empty]
  · rw [listing_run_spec]
    obtain ⟨rec, log, c1, c2⟩ := env
    obtain ⟨s2, r2⟩ := c2
    simp only [listingBodySpec, prepErr, hconn, hrec, hlog, hres, heligb] at *
    cases s2 <;> cases r2 <;>
      simp_all [listingBodySpec, prepErr, hconn, hres, heligb,
        cycleResultSpec, cycleBodySpec, CycleBehavior.written, Body.write,
        Body.seekStart, Body.empty]

/-- C4 witness: with the machine attempt writing three bytes before
failing, the final sink holds exactly the two legacy bytes. -/
theorem listing_fallback_sink_reset_witness :
    (∀ b : Body, (Body.seekStart b).truncateHere = Body.empty) ∧
    (Session.fetchFileListing sampleEnvFallback (fun _ => []) (fun _ => [])
        (SessionState.init false) sampleRequest none World.init).body.data
      = sampleEnvFallback.cycle2.written :=
  listing_fallback_sink_reset sampleEnvFallback (fun _ => []) (fun _ => [])
    (SessionState.init false) sampleRequest none World.init 500 "syn"
    rfl rfl rfl rfl (Or.inl rfl)

/-- C10: when the machine-listing attempt fails with a server-reply
error whose code is not fallback-eligible, the sink is still reset to
empty before the error propagates unchanged. -/
theorem listing_terminal_error_resets_sink (env : SessionEnv)
    (decodeM decodeL : List Nat → List FileEntry) (st : SessionState)
    (request : Request) (file? : Option Body) (w : World) (code : Nat)
    (msg : String) (hconn : st.connection = none)
    (hrec : env.reconnect = none) (hlog : env.login = none)
    (herr : env.cycle1.err = some (.serverReply code msg))
    (hnot : ¬(code = ReplyCodes.commandUnrecognized ∨
      code = ReplyCodes.commandNotImplemented)) :
    (Session.fetchFileListing env decodeM decodeL st request file? w).result
        = .error (.ftp (.serverReply code msg)) ∧
    (Session.fetchFileListing env decodeM decodeL st request file? w).body
      = Body.empty := by
  rw [listing_run_spec]
  have hres : cycleResultSpec env.cycle1 = .error (.ftp (.serverReply code
      msg)) := cycleResultSpec_of_err _ _ herr
  push_neg at hnot
  have heligb : fallbackEligible code = false := by
    simp [fallbackEligible, hnot.1, hnot.2]
  constructor
  · simp [listingResultSpec, prepErr, hconn, hrec, hlog, hres, heligb]
  · simp [listingBodySpec, prepErr, hconn, hrec, hlog, hres, heligb]

/-- C10 witness: the non-eligible code 550 on a concrete run propagates
with an empty sink even though three bytes had been written. -/
theorem listing_terminal_error_resets_sink_witness :
    (Session.fetchFileListing sampleEnvTerminal (fun _ => []) (fun _ => [])
        (SessionState.init false) sampleRequest none World.init).result =
      .error (.ftp (.serverReply 550 "no")) ∧
    (Session.fetchFileListing sampleEnvTerminal (fun _ => []) (fun _ => [])
        (SessionState.init false) sampleRequest none World.init).body =
      Body.empty :=
  listing_terminal_error_resets_sink sampleEnvTerminal (fun _ => [])
    (fun _ => []) (SessionState.init false) sampleRequest none World.init
    550 "no" rfl rfl rfl rfl (by decide)

/-- C6: the recorder is side-effect-only — with an identical environment
the result, the final sink, the final request, the pool events and the
control-channel events of fetch and of fetch_file_listing are
field-for-field identical with and without a recorder session. -/
theorem recorder_noninterference (env : SessionEnv)
    (decodeM decodeL : List Nat → List FileEntry) (conn : Option Connection)
    (reqst : Option Request) (request : Request) (file? : Option Body)
    (w : World) :
    (Session.fetch env ⟨conn, reqst, true⟩ request file? w).result =
      (Session.fetch env ⟨conn, reqst, false⟩ request file? w).result ∧
    (Session.fetch env ⟨conn, reqst, true⟩ request file? w).body =
      (Session.fetch env ⟨conn, reqst, false⟩ request file? w).body ∧
    (Session.fetch env ⟨conn, reqst, true⟩ request file? w).request =
      (Session.fetch env ⟨conn, reqst, false⟩ request file? w).request ∧
    (Session.fetch env ⟨conn, reqst, true⟩ request file? w).world.events =
      (Session.fetch env ⟨conn, reqst, false⟩ request file? w).world.events ∧
    (Session.fetch env ⟨conn, reqst, true⟩ request file? w).world.ctrl =
      (Session.fetch env ⟨conn, reqst, false⟩ request file? w).world.ctrl ∧
    (Session.fetchFileListing env decodeM decodeL ⟨conn, reqst, true⟩ request
        file? w).result =
      (Session.fetchFileListing env decodeM decodeL ⟨conn, reqst, false⟩
        request file? w).result ∧
    (Session.fetchFileListing env decodeM decodeL ⟨conn, reqst, true⟩ request
        file? w).body =
      (Session.fetchFileListing env decodeM decodeL ⟨conn, reqst, false⟩
        request file? w).body ∧
    (Session.fetchFileListing env decodeM decodeL ⟨conn, reqst, true⟩ request
        file? w).request =
      (Session.fetchFileListing env decodeM decodeL ⟨conn, reqst, false⟩
        request file? w).request ∧
    (Session.fetchFileListing env decodeM decodeL ⟨conn, reqst, true⟩ request
        file? w).world.events =
      (Session.fetchFileListing env decodeM decodeL ⟨conn, reqst, false⟩
        request file? w).world.events ∧
    (Session.fetchFileListing env decodeM decodeL ⟨conn, reqst, true⟩ request
        file? w).world.ctrl =
      (Session.fetchFileListing env decodeM decodeL ⟨conn, reqst, false⟩
        request file? w).world.ctrl := by
  simp only [fetch_run_spec, listing_run_spec]
  simp [fetchResultSpec, fetchBodySpec, finalRequest, fetchPoolTrace,
    fetchCtrlTrace, listingResultSpec, listingBodySpec, listingPoolTrace,
    listingCtrlTrace, prepErr]

/-- C7: the login attempt of a fetch or fetch_file_listing call sends the
request credentials, with anonymous and the placeholder password standing
in for missing ones. -/
theorem login_credentials (env : SessionEnv)
    (decodeM decodeL : List Nat → List FileEntry) (st : SessionState)
    (request : Request) (file? : Option Body) (w : World)
    (hconn : st.connection = none) (hrec : env.reconnect = none) :
    loginEvents (Session.fetch env st request file? w).world.ctrl =
      loginEvents w.ctrl ++
        [(loginUsername request, loginPassword request)] ∧
    loginEvents (Session.fetchFileListing env decodeM decodeL st request
        file? w).world.ctrl =
      loginEvents w.ctrl ++
        [(loginUsername request, loginPassword request)] ∧
    (request.url_info.username = none → loginUsername request = "anonymous") ∧
    (∀ s, request.url_info.username = some s → s ≠ "" →
      loginUsername request = s) ∧
    (request.url_info.password = none → loginPassword request = "-wpull@") ∧
    (∀ s, request.url_info.password = some s → s ≠ "" →
      loginPassword request = s) := by
  obtain ⟨rec, log, c1, c2⟩ := env
  subst hrec
  refine ⟨?_, ?_, ?_, ?_, ?_, ?_⟩
  · rw [fetch_run_spec]
    cases log <;> simp [fetchCtrlTrace, hconn, loginEvents]
  · rw [listing_run_spec]
    cases log with
    | some e => simp [listingCtrlTrace, hconn, loginEvents]
    | none =>
        cases hx : cycleResultSpec c1 with
        | ok r => simp [listingCtrlTrace, hconn, loginEvents, hx]
        | error e =>
            cases e with
            | assertionFailed =>
                simp [listingCtrlTrace, hconn, loginEvents, hx]
            | ftp fe =>
                cases fe with
                | serverReply code m =>
                    by_cases hc : fallbackEligible code = true <;>
                      simp [listingCtrlTrace, hconn, loginEvents, hx, hc]
                | connectionError =>
                    simp [listingCtrlTrace, hconn, loginEvents, hx]
                | authError =>
                    simp [listingCtrlTrace, hconn, loginEvents, hx]
                | protocolError =>
                    simp [listingCtrlTrace, hconn, loginEvents, hx]
  · intro h
    simp [loginUsername, pyOrStr, h]
  · intro s hs hne
    simp [loginUsername, pyOrStr, hs, hne]
  · intro h
    simp [loginPassword, pyOrStr, h]
  · intro s hs hne
    simp [loginPassword, pyOrStr, hs, hne]

/-- C7 witness: a credential-free request on a concrete run logs in as
anonymous with the placeholder password. -/
theorem login_credentials_witness :
    loginEvents (Session.fetch sampleEnvOk (SessionState.init false)
        sampleRequest none World.init).world.ctrl =
      loginEvents World.init.ctrl ++
        [(loginUsername sampleRequest, loginPassword sampleRequest)] ∧
    loginUsername sampleRequest = "anonymous" ∧
    loginPassword sampleRequest = "-wpull@" :=
  ⟨(login_credentials sampleEnvOk (fun _ => []) (fun _ => [])
      (SessionState.init false) sampleRequest none World.init rfl rfl).1,
   (login_credentials sampleEnvOk (fun _ => []) (fun _ => [])
      (SessionState.init false) sampleRequest none World.init rfl rfl).2.2.1
     rfl,
   (login_credentials sampleEnvOk (fun _ => []) (fun _ => [])
      (SessionState.init false) sampleRequest none World.init
      rfl rfl).2.2.2.2.1 rfl⟩

/-- C8: a call mutates the request only in its address field — the URL
information is preserved on every path, the address is assigned from the
acquired control connection when the call proceeds, and a call rejected
by the held-connection assertion leaves the request untouched. -/
theorem request_mutation_frame (env : SessionEnv)
    (decodeM decodeL : List Nat → List FileEntry) (st : SessionState)
    (request : Request) (file? : Option Body) (w : World) :
    (Session.fetch env st request file? w).request.url_info =
      request.url_info ∧
    (Session.fetchFileListing env decodeM decodeL st request file?
        w).request.url_info = request.url_info ∧
    (st.connection = none →
      (Session.fetch env st request file? w).request.address =
        some ⟨request.url_info.hostname, request.url_info.port⟩ ∧
      (Session.fetchFileListing env decodeM decodeL st request file?
          w).request.address =
        some ⟨request.url_info.hostname, request.url_info.port⟩) ∧
    (∀ c, st.connection = some c →
      (Session.fetch env st request file? w).request = request ∧
      (Session.fetchFileListing env decodeM decodeL st request file?
          w).request = request) := by
  rw [fetch_run_spec, listing_run_spec]
  refine ⟨?_, ?_, ?_, ?_⟩
  · cases hc : st.connection <;> simp [finalRequest, hc]
  · cases hc : st.connection <;> simp [finalRequest, hc]
  · intro h
    simp [finalRequest, h]
  · intro c h
    simp [finalRequest, h]

/-- C8 witness: the frame property evaluated on a fresh session and on a
session already holding a connection. -/
theorem request_mutation_frame_witness :
    (Session.fetch sampleEnvOk (SessionState.init false) sampleRequest none
        World.init).request.url_info = sampleRequest.url_info ∧
    (Session.fetch sampleEnvOk (SessionState.init false) sampleRequest none
        World.init).request.address =
      some ⟨sampleRequest.url_info.hostname, sampleRequest.url_info.port⟩ ∧
    (Session.fetch sampleEnvOk ⟨some sampleConn, none, false⟩ sampleRequest
        none World.init).request = sampleRequest :=
  ⟨(request_mutation_frame sampleEnvOk (fun _ => []) (fun _ => [])
      (SessionState.init false) sampleRequest none World.init).1,
   ((request_mutation_frame sampleEnvOk (fun _ => []) (fun _ => [])
      (SessionState.init false) sampleRequest none World.init).2.2.1 rfl).1,
   ((request_mutation_frame sampleEnvOk (fun _ => []) (fun _ => [])
      ⟨some sampleConn, none, false⟩ sampleRequest none World.init).2.2.2
     sampleConn rfl).1⟩

/-- No cycle ever checks out a connection in the control role. -/
theorem controlCheckOuts_cyclePoolTrace (cyc : CycleBehavior) (n : Nat) :
    controlCheckOuts (cyclePoolTrace cyc n) = [] := by
  obtain ⟨s, r⟩ := cyc
  cases s <;> simp [cyclePoolTrace, controlCheckOuts]

/-- Control checkouts of an empty trace. -/
theorem controlCheckOuts_nil : controlCheckOuts [] = [] := rfl

/-- Control checkouts distribute over trace concatenation. -/
theorem controlCheckOuts_append (l₁ l₂ : List PoolEvent) :
    controlCheckOuts (l₁ ++ l₂) =
      controlCheckOuts l₁ ++ controlCheckOuts l₂ := by
  simp [controlCheckOuts]

/-- Control checkouts of a trace starting with an event. -/
theorem controlCheckOuts_cons (e : PoolEvent) (l : List PoolEvent) :
    controlCheckOuts (e :: l) =
      (match e with
        | .checkOut i .control _ _ => [i]
        | _ => []) ++ controlCheckOuts l := by
  cases e with
  | checkOut i role host port => cases role <;> simp [controlCheckOuts]
  | checkIn i => simp [controlCheckOuts]
  | closeConn i => simp [controlCheckOuts]

/-- C9: stream initialization asserts that no control connection is held:
a second fetch or fetch_file_listing on a session still holding its
control connection fails the assertion and touches neither the pool nor
the session; a call on a fresh session checks out exactly one control
connection. -/
theorem control_connection_assertion (env : SessionEnv)
    (decodeM decodeL : List Nat → List FileEntry) (st : SessionState)
    (request : Request) (file? : Option Body) (w : World) :
    (∀ c, st.connection = some c →
      (Session.fetch env st request file? w).result =
          .error .assertionFailed ∧
      (Session.fetch env st request file? w).world = w ∧
      (Session.fetch env st request file? w).state = st ∧
      (Session.fetchFileListing env decodeM decodeL st request file?
          w).result = .error .assertionFailed ∧
      (Session.fetchFileListing env decodeM decodeL st request file?
          w).world = w ∧
      (Session.fetchFileListing env decodeM decodeL st request file?
          w).state = st) ∧
    (st.connection = none →
      controlCheckOuts
          (newEvents w (Session.fetch env st request file? w).world) =
        [w.nextId] ∧
      controlCheckOuts (newEvents w (Session.fetchFileListing env decodeM
          decodeL st request file? w).world) = [w.nextId]) := by
  rw [fetch_run_spec, listing_run_spec]
  constructor
  · intro c h
    simp [fetchResultSpec, listingResultSpec, prepErr, h, finalSessionState,
      fetchNextId, listingNextId, fetchPoolTrace, listingPoolTrace,
      fetchCtrlTrace, listingCtrlTrace, fetchRecTrace, listingRecTrace]
  · intro h
    obtain ⟨rec, log, c1, c2⟩ := env
    have hc1 := controlCheckOuts_cyclePoolTrace c1 (w.nextId + 1)
    have hc2 := controlCheckOuts_cyclePoolTrace c2
      (cycleNextId c1 (w.nextId + 1))
    constructor
    · cases rec <;> cases log <;>
        simp [newEvents, fetchPoolTrace, h, controlCheckOuts_cons,
          controlCheckOuts_append, controlCheckOuts_nil, hc1]
    · cases rec with
      | some e =>
          simp [newEvents, listingPoolTrace, h, controlCheckOuts_cons,
            controlCheckOuts_nil]
      | none =>
          cases log with
          | some e =>
              simp [newEvents, listingPoolTrace, h, controlCheckOuts_cons,
                controlCheckOuts_nil]
          | none =>
              cases hx : cycleResultSpec c1 with
              | ok r =>
                  simp [newEvents, listingPoolTrace, h, hx,
                    controlCheckOuts_cons, controlCheckOuts_append,
                    controlCheckOuts_nil, hc1]
              | error e =>
                  rcases e with _ | fe
                  · simp [newEvents, listingPoolTrace, h, hx,
                      controlCheckOuts_cons, controlCheckOuts_append,
                      controlCheckOuts_nil, hc1]
                  · rcases fe with ⟨code, m⟩ | _ | _ | _
                    · by_cases hcx : fallbackEligible code = true <;>
                        simp [newEvents, listingPoolTrace, h, hx, hcx,
                          controlCheckOuts_cons, controlCheckOuts_append,
                          controlCheckOuts_nil, hc1, hc2]
                    · simp [newEvents, listingPoolTrace, h, hx,
                        controlCheckOuts_cons, controlCheckOuts_append,
                        controlCheckOuts_nil, hc1]
                    · simp [newEvents, listingPoolTrace, h, hx,
                        controlCheckOuts_cons, controlCheckOuts_append,
                        controlCheckOuts_nil, hc1]
                    · simp [newEvents, listingPoolTrace, h, hx,
                        controlCheckOuts_cons, controlCheckOuts_append,
                        controlCheckOuts_nil, hc1]

/-- C9 witness: a fresh call checks out one control connection, and a
second call on the same still-holding session fails the assertion. -/
theorem control_connection_assertion_witness :
    controlCheckOuts (newEvents World.init (Session.fetch sampleEnvOk
        (SessionState.init false) sampleRequest none World.init).world) =
      [World.init.nextId] ∧
    (Session.fetch sampleEnvOk ⟨some sampleConn, none, false⟩ sampleRequest
        none World.init).result = .error .assertionFailed ∧
    (Session.fetchFileListing sampleEnvOk (fun _ => []) (fun _ => [])
        ⟨some sampleConn, none, false⟩ sampleRequest none World.init).result =
      .error .assertionFailed :=
  ⟨((control_connection_assertion sampleEnvOk (fun _ => []) (fun _ => [])
      (SessionState.init false) sampleRequest none World.init).2 rfl).1,
   ((control_connection_assertion sampleEnvOk (fun _ => []) (fun _ => [])
      ⟨some sampleConn, none, false⟩ sampleRequest none World.init).1
     sampleConn rfl).1,
   ((control_connection_assertion sampleEnvOk (fun _ => []) (fun _ => [])
      ⟨some sampleConn, none, false⟩ sampleRequest none World.init).1
     sampleConn rfl).2.2.2.1⟩

end Wpull
